import Mathlib

/-!
Shallow embedding of the YOLO benchmarking utilities
(`src/utils/fps.py`, `src/utils/monitor.py`, `src/utils/logger.py`,
`src/compare_results.py`, `src/run_yolov8.py`) and proofs of the
specification claims about them.

Time values are modelled as rationals.  Python float division that can
raise `ZeroDivisionError` is modelled by `pydiv`, which returns `none`
exactly when the denominator is zero; a function that always returns
`some` therefore never divides by zero.
-/

/-- Python float division: `none` models a raised `ZeroDivisionError`. -/
def pydiv (a b : ℚ) : Option ℚ :=
  if b = 0 then none else some (a / b)

/-- Appending to a `collections.deque` with `maxlen = cap`:
the element is appended and, if the deque would exceed `cap`,
the oldest element is discarded from the other end. -/
def dequeAppend (cap : Nat) (xs : List ℚ) (x : ℚ) : List ℚ :=
  let ys := xs ++ [x]
  if cap < ys.length then ys.tail else ys

/-- State of `FPSCalculator` (src/utils/fps.py). -/
structure FPSCalculator where
  window_size : Nat
  frame_times : List ℚ
  frame_count : Nat
  start_time : Option ℚ
  last_frame_time : Option ℚ
deriving DecidableEq, Repr

/-- `FPSCalculator.__init__(window_size)`. -/
def FPSCalculator.init (window_size : Nat) : FPSCalculator :=
  { window_size := window_size
    frame_times := []
    frame_count := 0
    start_time := none
    last_frame_time := none }

/-- `FPSCalculator.start()` at wall-clock time `t`: sets both the start
time and the last-frame baseline to `t`, resets count and window. -/
def FPSCalculator.start (c : FPSCalculator) (t : ℚ) : FPSCalculator :=
  { c with
    start_time := some t
    last_frame_time := some t
    frame_count := 0
    frame_times := [] }

/-- `FPSCalculator.get_fps()`: 0.0 for an empty window; otherwise the
reciprocal of the average frame time, guarded so no division by zero
can occur (`none` would model a raised exception). -/
def FPSCalculator.get_fps (c : FPSCalculator) : Option ℚ :=
  if c.frame_times = [] then some 0
  else
    (pydiv c.frame_times.sum (c.frame_times.length : ℚ)).bind fun avg =>
      if 0 < avg then pydiv 1 avg else some 0

/-- `FPSCalculator.update()` at wall-clock time `t`: if a previous
timestamp exists, the elapsed interval is pushed into the rolling
window; the baseline moves to `t`, the count increments, and the
rolling FPS is returned alongside the new state. -/
def FPSCalculator.update (c : FPSCalculator) (t : ℚ) : Option ℚ × FPSCalculator :=
  let c1 :=
    match c.last_frame_time with
    | some l => { c with frame_times := dequeAppend c.window_size c.frame_times (t - l) }
    | none => c
  let c2 := { c1 with last_frame_time := some t, frame_count := c1.frame_count + 1 }
  (c2.get_fps, c2)

/-- State of `InferenceTimer` (src/utils/fps.py). -/
structure InferenceTimer where
  start_time : Option ℚ
  times : List ℚ
deriving DecidableEq, Repr

/-- `InferenceTimer.__init__()`. -/
def InferenceTimer.init : InferenceTimer :=
  { start_time := none, times := [] }

/-- `InferenceTimer.start()` at wall-clock time `t`. -/
def InferenceTimer.start (s : InferenceTimer) (t : ℚ) : InferenceTimer :=
  { s with start_time := some t }

/-- `InferenceTimer.stop()` at wall-clock time `t`: returns 0.0 and
changes nothing when no start is pending; otherwise records and returns
the elapsed time and clears the pending start. -/
def InferenceTimer.stop (s : InferenceTimer) (t : ℚ) : ℚ × InferenceTimer :=
  match s.start_time with
  | none => (0, s)
  | some st => (t - st, { start_time := none, times := s.times ++ [t - st] })

/-- `InferenceTimer.get_average()`: 0.0 when no interval is recorded. -/
def InferenceTimer.get_average (s : InferenceTimer) : ℚ :=
  if s.times = [] then 0 else s.times.sum / (s.times.length : ℚ)

/-- `InferenceTimer.get_min()`: `None` when no interval is recorded. -/
def InferenceTimer.get_min (s : InferenceTimer) : Option ℚ :=
  match s.times with
  | [] => none
  | x :: xs => some (xs.foldl min x)

/-- `InferenceTimer.get_max()`: `None` when no interval is recorded. -/
def InferenceTimer.get_max (s : InferenceTimer) : Option ℚ :=
  match s.times with
  | [] => none
  | x :: xs => some (xs.foldl max x)

/-- Operations applied to an `InferenceTimer`, each tagged with the
wall-clock time at which it happens. -/
inductive TimerOp where
  | start (t : ℚ)
  | stop (t : ℚ)
deriving DecidableEq, Repr

/-- Apply one operation to a timer, discarding the return value of `stop`. -/
def InferenceTimer.applyOp (s : InferenceTimer) : TimerOp → InferenceTimer
  | .start t => s.start t
  | .stop t => (s.stop t).2

/-- Run a sequence of operations on a fresh timer. -/
def runTimerOps (ops : List TimerOp) : InferenceTimer :=
  ops.foldl InferenceTimer.applyOp InferenceTimer.init

/-- Number of `start` calls in an operation sequence. -/
def countStarts : List TimerOp → Nat
  | [] => 0
  | .start _ :: rest => countStarts rest + 1
  | .stop _ :: rest => countStarts rest

/-- 1 when a start is pending, else 0. -/
def InferenceTimer.pending (s : InferenceTimer) : Nat :=
  if s.start_time.isSome then 1 else 0

/-- The eight boolean flags decoded by
`SystemMonitor.get_throttling_status` (src/utils/monitor.py). -/
structure ThrottlingStatus where
  under_voltage_now : Bool
  freq_capped_now : Bool
  throttled_now : Bool
  soft_temp_limit_now : Bool
  under_voltage_occurred : Bool
  freq_capped_occurred : Bool
  throttled_occurred : Bool
  soft_temp_limit_occurred : Bool
deriving DecidableEq, Repr

/-- The pure decoding step of `SystemMonitor.get_throttling_status`:
the parsed `vcgencmd get_throttled` word is masked bit by bit; the Python expression
`bool(x & m)` is true exactly when the masked value is nonzero. -/
def SystemMonitor.get_throttling_status (throttled_value : Nat) : ThrottlingStatus :=
  { under_voltage_now := throttled_value &&& 0x1 != 0
    freq_capped_now := throttled_value &&& 0x2 != 0
    throttled_now := throttled_value &&& 0x4 != 0
    soft_temp_limit_now := throttled_value &&& 0x8 != 0
    under_voltage_occurred := throttled_value &&& 0x10000 != 0
    freq_capped_occurred := throttled_value &&& 0x20000 != 0
    throttled_occurred := throttled_value &&& 0x40000 != 0
    soft_temp_limit_occurred := throttled_value &&& 0x80000 != 0 }

/-- The summary block of one loaded benchmark run as read by
`BenchmarkComparator` (src/compare_results.py); `none` models an absent
JSON key and, for `avg_temperature`, also drives Python truthiness. -/
structure RunSummary where
  avg_fps : Option ℚ
  avg_inference_ms : Option ℚ
  avg_cpu : Option ℚ
  avg_memory : Option ℚ
  avg_temperature : Option ℚ
  throttle_events : Option ℚ
deriving DecidableEq, Repr

/-- Python truthiness of the fetched `avg_temperature` value: an absent
key (`None`) and the value `0.0` are both falsy. -/
def tempTruthy : Option ℚ → Bool
  | none => false
  | some t => t != 0

/-- Result of `BenchmarkComparator._calculate_improvement`. -/
structure Improvement where
  percentage : ℚ
  better_model : String
  direction : String
deriving DecidableEq, Repr

/-- `BenchmarkComparator._calculate_improvement` for exactly two loaded
models `(m0, v0)` (first loaded, the baseline) and `(m1, v1)`:
dividing by the baseline value (a `ZeroDivisionError` is `none`),
storing the absolute percentage, the better model, and a direction
label from the sign of the raw percentage. -/
def BenchmarkComparator.calculate_improvement (m0 m1 : String) (v0 v1 : ℚ)
    (lower_is_better : Bool) : Option Improvement :=
  if lower_is_better then
    (pydiv (v0 - v1) v0).map fun r =>
      { percentage := |r * 100|
        better_model := if v1 < v0 then m1 else m0
        direction := if 0 < r * 100 then "improvement" else "regression" }
  else
    (pydiv (v1 - v0) v0).map fun r =>
      { percentage := |r * 100|
        better_model := if v0 < v1 then m1 else m0
        direction := if 0 < r * 100 then "improvement" else "regression" }

/-- The comparison dictionary built by `BenchmarkComparator.compare`
for exactly two loaded runs. -/
structure Comparison where
  models : List String
  fps : ℚ × ℚ
  fps_winner : String
  fps_improvement : Option Improvement
  inference_ms : ℚ × ℚ
  inference_winner : String
  inference_improvement : Option Improvement
  cpu : ℚ × ℚ
  cpu_winner : String
  memory : ℚ × ℚ
  memory_winner : String
  temperature : Option (List (String × ℚ))
  temperature_winner : Option String
  throttle_events : ℚ × ℚ
deriving DecidableEq, Repr

/-- First key of minimal value in a nonempty association list, as
the Python call `min(d, key=d.get)` (ties keep the earlier entry). -/
def minKeyBy (x : String × ℚ) (xs : List (String × ℚ)) : String :=
  (xs.foldl (fun best p => if p.2 < best.2 then p else best) x).1

/-- `BenchmarkComparator.compare` for exactly two loaded runs, the
first-loaded model `m0` first.  Missing summary values default to 0
via `dict.get(key, 0)`; the Python `max`/`min` over the model dict keep
the earlier (first-loaded) model on ties.  The temperature block is
emitted whenever the filtered dict is nonempty, i.e. when at least one
model has a truthy `avg_temperature`. -/
def BenchmarkComparator.compare (m0 : String) (s0 : RunSummary)
    (m1 : String) (s1 : RunSummary) : Comparison :=
  let f0 := s0.avg_fps.getD 0
  let f1 := s1.avg_fps.getD 0
  let i0 := s0.avg_inference_ms.getD 0
  let i1 := s1.avg_inference_ms.getD 0
  let c0 := s0.avg_cpu.getD 0
  let c1 := s1.avg_cpu.getD 0
  let r0 := s0.avg_memory.getD 0
  let r1 := s1.avg_memory.getD 0
  let tempData :=
    (if tempTruthy s0.avg_temperature then [(m0, s0.avg_temperature.getD 0)] else []) ++
    (if tempTruthy s1.avg_temperature then [(m1, s1.avg_temperature.getD 0)] else [])
  { models := [m0, m1]
    fps := (f0, f1)
    fps_winner := if f0 < f1 then m1 else m0
    fps_improvement := BenchmarkComparator.calculate_improvement m0 m1 f0 f1 false
    inference_ms := (i0, i1)
    inference_winner := if i1 < i0 then m1 else m0
    inference_improvement := BenchmarkComparator.calculate_improvement m0 m1 i0 i1 true
    cpu := (c0, c1)
    cpu_winner := if c1 < c0 then m1 else m0
    memory := (r0, r1)
    memory_winner := if r1 < r0 then m1 else m0
    temperature := match tempData with
      | [] => none
      | _ => some tempData
    temperature_winner := match tempData with
      | [] => none
      | x :: xs => some (minKeyBy x xs)
    throttle_events := (s0.throttle_events.getD 0, s1.throttle_events.getD 0) }

/-- The per-category winners iterated by `print_comparison` when it
counts wins: insertion order fps, inference, cpu, memory, then
temperature when that block is present. -/
def categoryWinners (c : Comparison) : List String :=
  [c.fps_winner, c.inference_winner, c.cpu_winner, c.memory_winner] ++
    (match c.temperature_winner with
     | some w => [w]
     | none => [])

/-- Number of category wins `print_comparison` credits to `model`. -/
def categoryWins (c : Comparison) (model : String) : Nat :=
  (categoryWinners c).count model

/-- The single overall winner printed by `print_comparison`:
`max(wins, key=wins.get)` over the models in load order keeps the
first-loaded model unless the second strictly exceeds it. -/
def overall_winner (m0 m1 : String) (c : Comparison) : String :=
  if categoryWins c m0 < categoryWins c m1 then m1 else m0

/-- The wall-clock reading `datetime.now()` returns at
`BenchmarkLogger` construction (src/utils/logger.py): calendar fields
down to the microsecond.  The strftime format used by the logger keeps
only the fields down to the second. -/
structure PyDateTime where
  year : Nat
  month : Nat
  day : Nat
  hour : Nat
  minute : Nat
  second : Nat
  microsecond : Nat
deriving DecidableEq, Repr

/-- Zero-padding to two digits, as the strftime codes `%m, %d, %H, %M, %S`. -/
def pad2 (n : Nat) : String :=
  if n < 10 then "0" ++ toString n else toString n

/-- Zero-padding to four digits, as the strftime code `%Y`. -/
def pad4 (n : Nat) : String :=
  if n < 10 then "000" ++ toString n
  else if n < 100 then "00" ++ toString n
  else if n < 1000 then "0" ++ toString n
  else toString n

/-- The timestamp `datetime.now()` formatted with `%Y-%m-%d_%H-%M-%S`: second resolution,
the microsecond field is dropped. -/
def strftimeTimestamp (d : PyDateTime) : String :=
  pad4 d.year ++ "-" ++ pad2 d.month ++ "-" ++ pad2 d.day ++ "_" ++
    pad2 d.hour ++ "-" ++ pad2 d.minute ++ "-" ++ pad2 d.second

/-- The log path `BenchmarkLogger.__init__` allocates:
`<log_dir>/<model>/<model>_<timestamp>.log`. -/
def BenchmarkLogger.log_path (log_dir model : String) (d : PyDateTime) : String :=
  log_dir ++ "/" ++ model ++ "/" ++ model ++ "_" ++ strftimeTimestamp d ++ ".log"

/-- The JSON path `BenchmarkLogger.__init__` allocates:
`<log_dir>/<model>/<model>_<timestamp>.json`. -/
def BenchmarkLogger.json_path (log_dir model : String) (d : PyDateTime) : String :=
  log_dir ++ "/" ++ model ++ "/" ++ model ++ "_" ++ strftimeTimestamp d ++ ".json"

/-- One entry of the metrics buffer consumed by
`YOLOv8Benchmark._write_summary` (src/run_yolov8.py): `none` models an
absent key (or, for temperature, an explicit `None` value), which the
per-field filters of the summary skip. -/
structure MetricRecord where
  inference_time : Option ℚ
  fps : Option ℚ
  cpu_percent : Option ℚ
  memory_percent : Option ℚ
  temperature : Option ℚ
  throttled : Bool
deriving DecidableEq, Repr

/-- The summary dictionary `_write_summary` builds; the three
temperature entries are bundled in one optional component because the
code adds those keys only when some record carries a temperature. -/
structure BenchSummary where
  total_frames : Nat
  avg_fps : ℚ
  min_fps : ℚ
  max_fps : ℚ
  avg_inference_ms : ℚ
  min_inference_ms : ℚ
  max_inference_ms : ℚ
  avg_cpu : ℚ
  max_cpu : ℚ
  avg_memory : ℚ
  max_memory : ℚ
  throttle_events : Nat
  temperature_block : Option (ℚ × ℚ × ℚ)
deriving DecidableEq, Repr

/-- Minimum of a nonempty list, as the Python builtin `min`. -/
def listMin (x : ℚ) (xs : List ℚ) : ℚ := xs.foldl min x

/-- Maximum of a nonempty list, as the Python builtin `max`. -/
def listMax (x : ℚ) (xs : List ℚ) : ℚ := xs.foldl max x

/-- `sum(xs)/len(xs) if xs else 0`: the guarded-average pattern of
`_write_summary`; the division happens only behind the check. -/
def summaryAvg (xs : List ℚ) : Option ℚ :=
  match xs with
  | [] => some 0
  | _ => pydiv xs.sum (xs.length : ℚ)

/-- `min(xs)` guarded by the same nonemptiness check, 0 when empty. -/
def summaryMin (xs : List ℚ) : ℚ :=
  match xs with
  | [] => 0
  | x :: rest => listMin x rest

/-- `max(xs)` guarded by the same nonemptiness check, 0 when empty. -/
def summaryMax (xs : List ℚ) : ℚ :=
  match xs with
  | [] => 0
  | x :: rest => listMax x rest

/-- The three temperature entries, emitted only when some record has a
temperature; `temp_rise` is max minus the first recorded value. -/
def summaryTempBlock (temps : List ℚ) : Option (Option (ℚ × ℚ × ℚ)) :=
  match temps with
  | [] => some none
  | x :: rest =>
    (pydiv temps.sum (temps.length : ℚ)).map fun a =>
      some (a, listMax x rest, listMax x rest - x)

/-- `YOLOv8Benchmark._write_summary`, its buffer-aggregation part:
each field is collected from the records where it is present, every
average divides only behind a nonemptiness check (a `none` from `pydiv`
models a raised `ZeroDivisionError`), an absent field yields 0, and
the temperature keys are emitted only when some record has one.
`frame_count` and `overall_avg_fps` stand for the two entries taken
from the FPS calculator rather than the buffer. -/
def YOLOv8Benchmark.write_summary (buffer : List MetricRecord)
    (frame_count : Nat) (overall_avg_fps : ℚ) : Option BenchSummary :=
  let infs := buffer.filterMap (fun m => m.inference_time)
  let fpss := buffer.filterMap (fun m => m.fps)
  let cpus := buffer.filterMap (fun m => m.cpu_percent)
  let mems := buffer.filterMap (fun m => m.memory_percent)
  let temps := buffer.filterMap (fun m => m.temperature)
  let throttles := (buffer.filter (fun m => m.throttled)).length
  do
    let avgInf ← summaryAvg infs
    let avgCpu ← summaryAvg cpus
    let avgMem ← summaryAvg mems
    let tempBlock ← summaryTempBlock temps
    some
      { total_frames := frame_count
        avg_fps := overall_avg_fps
        min_fps := summaryMin fpss
        max_fps := summaryMax fpss
        avg_inference_ms := avgInf * 1000
        min_inference_ms := summaryMin infs * 1000
        max_inference_ms := summaryMax infs * 1000
        avg_cpu := avgCpu
        max_cpu := summaryMax cpus
        avg_memory := avgMem
        max_memory := summaryMax mems
        throttle_events := throttles
        temperature_block := tempBlock }

lemma masked_bne_zero (n k : Nat) : ((n &&& 2 ^ k) != 0) = n.testBit k := by
  rw [Nat.and_two_pow]
  cases h : n.testBit k <;> simp

lemma masked_bne_zero_of_eq (n m k : Nat) (hm : m = 2 ^ k) :
    ((n &&& m) != 0) = n.testBit k := by
  subst hm
  exact masked_bne_zero n k

/-- C2: `get_throttling_status` decodes the status word with
bit0 = under-voltage-now, bit1 = freq-capped-now, bit2 = throttled-now,
bit3 = soft-limit-now, bit16 = under-voltage-occurred,
bit17 = freq-capped-occurred, bit18 = throttled-occurred,
bit19 = soft-limit-occurred; in particular `0x50005` decodes to
under-voltage-now, throttled-now, under-voltage-occurred,
throttled-occurred true, everything else false. -/
theorem get_throttling_status_bit_layout :
    (∀ n : Nat, SystemMonitor.get_throttling_status n =
      { under_voltage_now := n.testBit 0
        freq_capped_now := n.testBit 1
        throttled_now := n.testBit 2
        soft_temp_limit_now := n.testBit 3
        under_voltage_occurred := n.testBit 16
        freq_capped_occurred := n.testBit 17
        throttled_occurred := n.testBit 18
        soft_temp_limit_occurred := n.testBit 19 }) ∧
    SystemMonitor.get_throttling_status 0x50005 =
      { under_voltage_now := true
        freq_capped_now := false
        throttled_now := true
        soft_temp_limit_now := false
        under_voltage_occurred := true
        freq_capped_occurred := false
        throttled_occurred := true
        soft_temp_limit_occurred := false } := by
  constructor
  · intro n
    simp only [SystemMonitor.get_throttling_status, ThrottlingStatus.mk.injEq]
    refine ⟨?_, ?_, ?_, ?_, ?_, ?_, ?_, ?_⟩ <;>
      exact masked_bne_zero_of_eq n _ _ (by norm_num)
  · decide

/-- C5 (counterexample): `get_average` on an empty timer returns the
numeric default 0.0, the same value it returns for a recorded
zero-length interval, so it is not an explicit "no data" signal. -/
theorem get_average_empty_counterexample :
    InferenceTimer.init.get_average = 0 ∧
    (InferenceTimer.mk none [0]).get_average = 0 := by
  refine ⟨?_, ?_⟩ <;> simp [InferenceTimer.get_average, InferenceTimer.init]

/-- C5 (amended): with no recorded interval, `get_min` and `get_max`
return `None`, but `get_average` returns the numeric default 0.0; on a
nonempty record list, `get_min` and `get_max` return a value. -/
theorem InferenceTimer_empty_getters :
    (∀ s : InferenceTimer, s.times = [] →
      s.get_min = none ∧ s.get_max = none ∧ s.get_average = 0) ∧
    (∀ s : InferenceTimer, s.times ≠ [] →
      s.get_min.isSome = true ∧ s.get_max.isSome = true) := by
  constructor
  · intro s h
    refine ⟨?_, ?_, ?_⟩ <;>
      simp [InferenceTimer.get_min, InferenceTimer.get_max,
        InferenceTimer.get_average, h]
  · intro s h
    match hs : s.times with
    | [] => exact absurd hs h
    | x :: xs =>
      constructor <;> simp [InferenceTimer.get_min, InferenceTimer.get_max, hs]

/-- C5 (witness): the empty-timer clause applied to a fresh timer, and
the nonempty clause applied to a timer holding one interval. -/
theorem InferenceTimer_empty_getters_witness :
    (InferenceTimer.init.get_min = none ∧
      InferenceTimer.init.get_max = none ∧
      InferenceTimer.init.get_average = 0) ∧
    ((InferenceTimer.mk none [2]).get_min.isSome = true ∧
      (InferenceTimer.mk none [2]).get_max.isSome = true) :=
  ⟨InferenceTimer_empty_getters.1 InferenceTimer.init rfl,
    InferenceTimer_empty_getters.2 (InferenceTimer.mk none [2]) (by decide)⟩

/-- C6 (counterexample): after `start()` at time 0 followed by a single
`update()` at time 1, the rolling window is not empty: `start` set the
last-frame baseline, so the first `update` already records the
interval 1 elapsed since `start`. -/
theorem start_then_update_window_not_empty :
    ((((FPSCalculator.init 30).start 0).update 1).2).frame_times = [1] ∧
    ((((FPSCalculator.init 30).start 0).update 1).2).frame_times ≠ [] := by
  refine ⟨?_, ?_⟩ <;>
    simp [FPSCalculator.init, FPSCalculator.start, FPSCalculator.update, dequeAppend]

/-- C6 (amended): only on a fresh (never started) calculator does the
first `update()` contribute no interval and merely set the baseline;
after `start()`, the first `update()` records the interval elapsed
since `start`, because `start` already set the baseline timestamp. -/
theorem first_update_baseline_spec :
    (∀ (ws : Nat) (t : ℚ),
      (((FPSCalculator.init ws).update t).2).frame_times = [] ∧
      (((FPSCalculator.init ws).update t).2).last_frame_time = some t) ∧
    (∀ (ws : Nat) (t0 t1 : ℚ),
      ((((FPSCalculator.init ws).start t0).update t1).2).frame_times =
        dequeAppend ws [] (t1 - t0)) ∧
    (∀ (ws : Nat) (t0 t1 : ℚ), 0 < ws →
      ((((FPSCalculator.init ws).start t0).update t1).2).frame_times = [t1 - t0]) := by
  refine ⟨?_, ?_, ?_⟩
  · intro ws t
    simp [FPSCalculator.init, FPSCalculator.update]
  · intro ws t0 t1
    simp [FPSCalculator.init, FPSCalculator.start, FPSCalculator.update]
  · intro ws t0 t1 hws
    simp [FPSCalculator.init, FPSCalculator.start, FPSCalculator.update,
      dequeAppend, Nat.not_lt.mpr hws]

/-- C6 (witness): the amended clauses at window size 30 and times
0 and 1. -/
theorem first_update_baseline_spec_witness :
    ((((FPSCalculator.init 30).update 1).2).frame_times = [] ∧
      (((FPSCalculator.init 30).update 1).2).last_frame_time = some 1) ∧
    ((((FPSCalculator.init 30).start 0).update 1).2).frame_times = [1 - 0] :=
  ⟨first_update_baseline_spec.1 30 1,
    first_update_baseline_spec.2.2 30 0 1 (by decide)⟩

lemma timer_foldl_len_bound (ops : List TimerOp) :
    ∀ s : InferenceTimer,
      (ops.foldl InferenceTimer.applyOp s).times.length +
        (ops.foldl InferenceTimer.applyOp s).pending ≤
      s.times.length + s.pending + countStarts ops := by
  induction ops with
  | nil => intro s; simp [countStarts]
  | cons op rest ih =>
    intro s
    have h := ih (InferenceTimer.applyOp s op)
    rw [List.foldl_cons]
    cases op with
    | start t =>
      have e1 : (InferenceTimer.applyOp s (.start t)).times = s.times := rfl
      have e2 : (InferenceTimer.applyOp s (.start t)).pending = 1 := rfl
      rw [e1, e2] at h
      rw [show countStarts (.start t :: rest) = countStarts rest + 1 from rfl]
      omega
    | stop t =>
      cases hst : s.start_time with
      | none =>
        have e1 : InferenceTimer.applyOp s (.stop t) = s := by
          simp [InferenceTimer.applyOp, InferenceTimer.stop, hst]
        rw [show countStarts (.stop t :: rest) = countStarts rest from rfl, e1]
        rw [e1] at h
        exact h
      | some st =>
        have e1 : (InferenceTimer.applyOp s (.stop t)).times.length =
            s.times.length + 1 := by
          simp [InferenceTimer.applyOp, InferenceTimer.stop, hst]
        have e2 : (InferenceTimer.applyOp s (.stop t)).pending = 0 := by
          simp [InferenceTimer.applyOp, InferenceTimer.stop, hst, InferenceTimer.pending]
        have e3 : s.pending = 1 := by
          simp [InferenceTimer.pending, hst]
        rw [e1, e2] at h
        rw [show countStarts (.stop t :: rest) = countStarts rest from rfl, e3]
        omega

/-- C10: every completed `stop()` clears the pending start timestamp;
a second `stop()` without an intervening `start()` returns 0.0 and
leaves the timer unchanged; and over any operation sequence run on a
fresh timer, the number of recorded intervals never exceeds the number
of `start()` calls. -/
theorem InferenceTimer_stop_invariant :
    (∀ (s : InferenceTimer) (t : ℚ), ((s.stop t).2).start_time = none) ∧
    (∀ (s : InferenceTimer) (t t1 : ℚ),
      (((s.stop t).2).stop t1).1 = 0 ∧ (((s.stop t).2).stop t1).2 = (s.stop t).2) ∧
    (∀ ops : List TimerOp, (runTimerOps ops).times.length ≤ countStarts ops) := by
  refine ⟨?_, ?_, ?_⟩
  · intro s t
    cases hst : s.start_time <;> simp [InferenceTimer.stop, hst]
  · intro s t t1
    cases hst : s.start_time <;> simp [InferenceTimer.stop, hst]
  · intro ops
    have h := timer_foldl_len_bound ops InferenceTimer.init
    have hinit : InferenceTimer.init.pending = 0 := rfl
    rw [hinit] at h
    simp only [InferenceTimer.init] at h
    calc (runTimerOps ops).times.length
        ≤ (runTimerOps ops).times.length + (runTimerOps ops).pending :=
          Nat.le_add_right _ _
      _ ≤ countStarts ops := by
          simpa [runTimerOps, InferenceTimer.init] using h

/-- C1: `get_fps` never divides by zero (it always returns a value);
it returns 0.0 on an empty window; on a nonempty window with positive
total it returns the reciprocal of the mean frame interval, i.e.
`len(window)/sum(window)`, which is `window_size/sum` once the window
is full; and when the window is full an `update` evicts the oldest
interval while appending the new one. -/
theorem FPSCalculator_get_fps_spec :
    (∀ c : FPSCalculator, ∃ v : ℚ, c.get_fps = some v) ∧
    (∀ c : FPSCalculator, c.frame_times = [] → c.get_fps = some 0) ∧
    (∀ c : FPSCalculator, c.frame_times ≠ [] → 0 < c.frame_times.sum →
      c.get_fps =
        some (1 / (c.frame_times.sum / (c.frame_times.length : ℚ))) ∧
      1 / (c.frame_times.sum / (c.frame_times.length : ℚ)) =
        (c.frame_times.length : ℚ) / c.frame_times.sum) ∧
    (∀ (c : FPSCalculator) (t l : ℚ), c.last_frame_time = some l →
      c.frame_times.length = c.window_size → 0 < c.window_size →
      ((c.update t).2).frame_times = c.frame_times.tail ++ [t - l]) := by
  refine ⟨?_, ?_, ?_, ?_⟩
  · intro c
    by_cases h : c.frame_times = []
    · exact ⟨0, by simp [FPSCalculator.get_fps, h]⟩
    · have hlen : (c.frame_times.length : ℚ) ≠ 0 := by
        exact_mod_cast List.length_pos.mpr h |>.ne'
      by_cases hpos : 0 < c.frame_times.sum / (c.frame_times.length : ℚ)
      · refine ⟨1 / (c.frame_times.sum / (c.frame_times.length : ℚ)), ?_⟩
        simp [FPSCalculator.get_fps, h, pydiv, hlen, hpos, hpos.ne']
      · refine ⟨0, ?_⟩
        simp [FPSCalculator.get_fps, h, pydiv, hlen, hpos]
  · intro c h
    simp [FPSCalculator.get_fps, h]
  · intro c h hsum
    have hlen0 : 0 < (c.frame_times.length : ℚ) := by
      exact_mod_cast List.length_pos.mpr h
    have hpos : 0 < c.frame_times.sum / (c.frame_times.length : ℚ) :=
      div_pos hsum hlen0
    constructor
    · simp [FPSCalculator.get_fps, h, pydiv, hlen0.ne', hpos, hpos.ne']
    · rw [one_div_div]
  · intro c t l hl hlen hws
    have hne : c.frame_times ≠ [] := by
      intro hnil
      rw [hnil] at hlen
      simp at hlen
      omega
    simp only [FPSCalculator.update, hl, dequeAppend]
    rw [if_pos (by simp [hlen])]
    exact List.tail_append_singleton_of_ne_nil hne

/-- C1 (witness): the clauses applied to a calculator whose window
holds the single interval 1/2, where the rolling FPS is 2, and to a
full one-slot window updated at time 3. -/
theorem FPSCalculator_get_fps_spec_witness :
    ((FPSCalculator.mk 2 [1/2] 1 none none).get_fps =
        some (1 / ((1/2 : ℚ) / ((1 : ℕ) : ℚ))) ∧
      1 / ((1/2 : ℚ) / ((1 : ℕ) : ℚ)) = ((1 : ℕ) : ℚ) / (1/2 : ℚ)) ∧
    (((FPSCalculator.mk 1 [2] 1 none (some 1)).update 3).2).frame_times =
      [(2 : ℚ)].tail ++ [3 - 1] := by
  constructor
  · have h := FPSCalculator_get_fps_spec.2.2.1 (FPSCalculator.mk 2 [1/2] 1 none none)
      (by simp) (by norm_num)
    simpa using h
  · exact FPSCalculator_get_fps_spec.2.2.2 (FPSCalculator.mk 1 [2] 1 none (some 1))
      3 1 rfl rfl (by decide)

lemma append_middle_inj (p s a b : String) (h : p ++ a ++ s = p ++ b ++ s) :
    a = b := by
  have hd := congrArg String.data h
  simp only [String.data_append] at hd
  exact String.ext (List.append_cancel_left (List.append_cancel_right hd))

/-- C9 (counterexample): two `BenchmarkLogger` constructions for the
same model within the same wall-clock second are distinct construction
events (the microseconds differ) yet are allocated identical log and
JSON paths, because the timestamp suffix has only second resolution —
so such runs collide and overwrite each other. -/
theorem logger_same_second_collision :
    (PyDateTime.mk 2026 10 12 5 33 7 0 ≠ PyDateTime.mk 2026 10 12 5 33 7 500000) ∧
    BenchmarkLogger.log_path "logs" "yolov8" (PyDateTime.mk 2026 10 12 5 33 7 0) =
      BenchmarkLogger.log_path "logs" "yolov8" (PyDateTime.mk 2026 10 12 5 33 7 500000) ∧
    BenchmarkLogger.json_path "logs" "yolov8" (PyDateTime.mk 2026 10 12 5 33 7 0) =
      BenchmarkLogger.json_path "logs" "yolov8" (PyDateTime.mk 2026 10 12 5 33 7 500000) := by
  refine ⟨by decide, rfl, rfl⟩

/-- C9 (amended): two constructions with the same model name receive
distinct log and JSON paths whenever their second-resolution formatted
timestamps differ; only constructions falling in the same formatted
second collide. -/
theorem logger_paths_distinct_across_seconds :
    ∀ (log_dir model : String) (d1 d2 : PyDateTime),
      strftimeTimestamp d1 ≠ strftimeTimestamp d2 →
      BenchmarkLogger.log_path log_dir model d1 ≠
        BenchmarkLogger.log_path log_dir model d2 ∧
      BenchmarkLogger.json_path log_dir model d1 ≠
        BenchmarkLogger.json_path log_dir model d2 := by
  intro log_dir model d1 d2 hts
  constructor
  · intro hpath
    simp only [BenchmarkLogger.log_path] at hpath
    exact hts (append_middle_inj _ _ _ _ hpath)
  · intro hpath
    simp only [BenchmarkLogger.json_path] at hpath
    exact hts (append_middle_inj _ _ _ _ hpath)

/-- C9 (witness): constructions one second apart get distinct paths. -/
theorem logger_paths_distinct_witness :
    BenchmarkLogger.log_path "logs" "yolov8" (PyDateTime.mk 2026 10 12 5 33 7 0) ≠
      BenchmarkLogger.log_path "logs" "yolov8" (PyDateTime.mk 2026 10 12 5 33 8 0) ∧
    BenchmarkLogger.json_path "logs" "yolov8" (PyDateTime.mk 2026 10 12 5 33 7 0) ≠
      BenchmarkLogger.json_path "logs" "yolov8" (PyDateTime.mk 2026 10 12 5 33 8 0) :=
  logger_paths_distinct_across_seconds "logs" "yolov8"
    (PyDateTime.mk 2026 10 12 5 33 7 0) (PyDateTime.mk 2026 10 12 5 33 8 0)
    (by decide)

/-- C3: with first-loaded model A (avg_fps 20, avg_inference_ms 50)
and second-loaded B (avg_fps 25, avg_inference_ms 40), `compare`
reports B as FPS and inference winner, a 25% fps improvement and a 20%
inference improvement, both labelled "improvement"; and in general the
improvement percentage is `(other - baseline)/baseline * 100` against
the first-loaded baseline, with the sign flipped for lower-is-better
metrics, stored as an absolute value with a sign-derived label. -/
theorem compare_concrete_and_improvement_formula :
    (BenchmarkComparator.compare "A" (RunSummary.mk (some 20) (some 50) none none none none)
        "B" (RunSummary.mk (some 25) (some 40) none none none none)).fps_winner = "B" ∧
    (BenchmarkComparator.compare "A" (RunSummary.mk (some 20) (some 50) none none none none)
        "B" (RunSummary.mk (some 25) (some 40) none none none none)).inference_winner = "B" ∧
    (BenchmarkComparator.compare "A" (RunSummary.mk (some 20) (some 50) none none none none)
        "B" (RunSummary.mk (some 25) (some 40) none none none none)).fps_improvement =
      some (Improvement.mk 25 "B" "improvement") ∧
    (BenchmarkComparator.compare "A" (RunSummary.mk (some 20) (some 50) none none none none)
        "B" (RunSummary.mk (some 25) (some 40) none none none none)).inference_improvement =
      some (Improvement.mk 20 "B" "improvement") ∧
    (∀ (m0 m1 : String) (v0 v1 : ℚ), v0 ≠ 0 →
      BenchmarkComparator.calculate_improvement m0 m1 v0 v1 false =
        some (Improvement.mk |(v1 - v0) / v0 * 100|
          (if v0 < v1 then m1 else m0)
          (if 0 < (v1 - v0) / v0 * 100 then "improvement" else "regression"))) ∧
    (∀ (m0 m1 : String) (v0 v1 : ℚ), v0 ≠ 0 →
      BenchmarkComparator.calculate_improvement m0 m1 v0 v1 true =
        some (Improvement.mk |(v0 - v1) / v0 * 100|
          (if v1 < v0 then m1 else m0)
          (if 0 < (v0 - v1) / v0 * 100 then "improvement" else "regression")) ∧
      (v0 - v1) / v0 * 100 = -((v1 - v0) / v0 * 100)) := by
  refine ⟨?_, ?_, ?_, ?_, ?_, ?_⟩
  · norm_num [BenchmarkComparator.compare]
  · norm_num [BenchmarkComparator.compare]
  · norm_num [BenchmarkComparator.compare, BenchmarkComparator.calculate_improvement, pydiv]
  · norm_num [BenchmarkComparator.compare, BenchmarkComparator.calculate_improvement, pydiv]
  · intro m0 m1 v0 v1 h0
    simp [BenchmarkComparator.calculate_improvement, pydiv, h0]
  · intro m0 m1 v0 v1 h0
    exact ⟨by simp [BenchmarkComparator.calculate_improvement, pydiv, h0], by ring⟩

/-- C3 (witness): the two general improvement-formula clauses applied
at baseline 10 and other value 15. -/
theorem compare_improvement_formula_witness :
    BenchmarkComparator.calculate_improvement "A" "B" 10 15 false =
      some (Improvement.mk |((15 : ℚ) - 10) / 10 * 100|
        (if (10 : ℚ) < 15 then "B" else "A")
        (if 0 < ((15 : ℚ) - 10) / 10 * 100 then "improvement" else "regression")) ∧
    BenchmarkComparator.calculate_improvement "A" "B" 10 15 true =
      some (Improvement.mk |((10 : ℚ) - 15) / 10 * 100|
        (if (15 : ℚ) < 10 then "B" else "A")
        (if 0 < ((10 : ℚ) - 15) / 10 * 100 then "improvement" else "regression")) :=
  ⟨compare_concrete_and_improvement_formula.2.2.2.2.1 "A" "B" 10 15 (by norm_num),
    (compare_concrete_and_improvement_formula.2.2.2.2.2 "A" "B" 10 15 (by norm_num)).1⟩

/-- C7 (counterexample): when the first-loaded run reports a
temperature and the second does not, `compare` still emits a
temperature comparison (over the single reporting model, which is
declared temperature winner), contradicting "included only if both
inputs report temperature data". -/
theorem temperature_comparison_one_sided :
    (BenchmarkComparator.compare "A" (RunSummary.mk none none none none (some 50) none)
        "B" (RunSummary.mk none none none none none none)).temperature =
      some [("A", 50)] ∧
    (BenchmarkComparator.compare "A" (RunSummary.mk none none none none (some 50) none)
        "B" (RunSummary.mk none none none none none none)).temperature_winner =
      some "A" := by
  constructor <;> norm_num [BenchmarkComparator.compare, tempTruthy, minKeyBy]

/-- C7 (amended): the temperature comparison (values and winner) is
omitted exactly when neither input reports a truthy `avg_temperature`
(absent or 0.0); it is emitted whenever at least one input does, and
covers both models only when both report one. -/
theorem temperature_comparison_truthiness :
    ∀ (m0 m1 : String) (s0 s1 : RunSummary),
      ((BenchmarkComparator.compare m0 s0 m1 s1).temperature = none ↔
        tempTruthy s0.avg_temperature = false ∧ tempTruthy s1.avg_temperature = false) ∧
      ((BenchmarkComparator.compare m0 s0 m1 s1).temperature_winner = none ↔
        tempTruthy s0.avg_temperature = false ∧ tempTruthy s1.avg_temperature = false) ∧
      (tempTruthy s0.avg_temperature = true → tempTruthy s1.avg_temperature = true →
        (BenchmarkComparator.compare m0 s0 m1 s1).temperature =
          some [(m0, s0.avg_temperature.getD 0), (m1, s1.avg_temperature.getD 0)]) := by
  intro m0 m1 s0 s1
  cases h0 : tempTruthy s0.avg_temperature <;>
    cases h1 : tempTruthy s1.avg_temperature <;>
      simp [BenchmarkComparator.compare, h0, h1]

/-- C7 (witness): the both-truthy clause at concrete temperatures 50
and 60, giving a two-model temperature comparison. -/
theorem temperature_comparison_truthiness_witness :
    (BenchmarkComparator.compare "A" (RunSummary.mk none none none none (some 50) none)
        "B" (RunSummary.mk none none none none (some 60) none)).temperature =
      some [("A", ((some (50 : ℚ)).getD 0 : ℚ)), ("B", ((some (60 : ℚ)).getD 0 : ℚ))] :=
  (temperature_comparison_truthiness "A" "B"
      (RunSummary.mk none none none none (some 50) none)
      (RunSummary.mk none none none none (some 60) none)).2.2
    (by norm_num [tempTruthy]) (by norm_num [tempTruthy])

/-- C8 (counterexample): when each model wins two of the four always
present categories, `print_comparison` still crowns the first-loaded
model sole overall winner, exactly as it does when that model wins
outright — the tie is broken silently instead of being surfaced. -/
theorem overall_winner_tie_counterexample :
    categoryWins (BenchmarkComparator.compare
        "A" (RunSummary.mk (some 30) (some 10) (some 90) (some 90) none none)
        "B" (RunSummary.mk (some 20) (some 20) (some 50) (some 50) none none)) "A" =
      categoryWins (BenchmarkComparator.compare
        "A" (RunSummary.mk (some 30) (some 10) (some 90) (some 90) none none)
        "B" (RunSummary.mk (some 20) (some 20) (some 50) (some 50) none none)) "B" ∧
    overall_winner "A" "B" (BenchmarkComparator.compare
        "A" (RunSummary.mk (some 30) (some 10) (some 90) (some 90) none none)
        "B" (RunSummary.mk (some 20) (some 20) (some 50) (some 50) none none)) = "A" ∧
    categoryWins (BenchmarkComparator.compare
        "A" (RunSummary.mk (some 30) (some 10) (some 50) (some 50) none none)
        "B" (RunSummary.mk (some 20) (some 20) (some 90) (some 90) none none)) "B" <
      categoryWins (BenchmarkComparator.compare
        "A" (RunSummary.mk (some 30) (some 10) (some 50) (some 50) none none)
        "B" (RunSummary.mk (some 20) (some 20) (some 90) (some 90) none none)) "A" ∧
    overall_winner "A" "B" (BenchmarkComparator.compare
        "A" (RunSummary.mk (some 30) (some 10) (some 50) (some 50) none none)
        "B" (RunSummary.mk (some 20) (some 20) (some 90) (some 90) none none)) = "A" := by
  refine ⟨?_, ?_, ?_, ?_⟩ <;>
    norm_num [BenchmarkComparator.compare, categoryWins, categoryWinners,
      overall_winner, tempTruthy, List.count_cons] <;>
    decide

/-- C8 (amended): the printed overall winner is the model with the
most per-category wins; when both models have the same number of
category wins, the first-loaded model is returned, so the tie is
broken silently in its favour rather than surfaced. -/
theorem overall_winner_spec :
    ∀ (m0 m1 : String) (c : Comparison),
      (categoryWins c m1 < categoryWins c m0 → overall_winner m0 m1 c = m0) ∧
      (categoryWins c m0 < categoryWins c m1 → overall_winner m0 m1 c = m1) ∧
      (categoryWins c m0 = categoryWins c m1 → overall_winner m0 m1 c = m0) := by
  intro m0 m1 c
  refine ⟨?_, ?_, ?_⟩ <;> intro h <;> simp [overall_winner] <;> omega

/-- C8 (witness): the tie clause applied to the tied comparison above,
and the strict clause applied to a comparison the first model sweeps. -/
theorem overall_winner_spec_witness :
    overall_winner "A" "B" (BenchmarkComparator.compare
        "A" (RunSummary.mk (some 30) (some 10) (some 90) (some 90) none none)
        "B" (RunSummary.mk (some 20) (some 20) (some 50) (some 50) none none)) = "A" ∧
    overall_winner "A" "B" (BenchmarkComparator.compare
        "A" (RunSummary.mk (some 30) (some 10) (some 50) (some 50) none none)
        "B" (RunSummary.mk (some 20) (some 20) (some 90) (some 90) none none)) = "A" :=
  ⟨(overall_winner_spec "A" "B" _).2.2
      (by
        norm_num [BenchmarkComparator.compare, categoryWins, categoryWinners,
          tempTruthy, List.count_cons]
        decide),
    (overall_winner_spec "A" "B" _).1
      (by
        norm_num [BenchmarkComparator.compare, categoryWins, categoryWinners,
          tempTruthy, List.count_cons]
        decide)⟩

lemma summaryAvg_eq (xs : List ℚ) :
    summaryAvg xs = some (if xs = [] then 0 else xs.sum / (xs.length : ℚ)) := by
  cases xs with
  | nil => rfl
  | cons x rest =>
    have h : ((rest.length : ℚ) + 1) ≠ 0 := by positivity
    simp [summaryAvg, pydiv, h]

lemma summaryTempBlock_eq (temps : List ℚ) :
    summaryTempBlock temps =
      some (match temps with
        | [] => none
        | x :: rest =>
          some (temps.sum / (temps.length : ℚ), listMax x rest, listMax x rest - x)) := by
  cases temps with
  | nil => rfl
  | cons x rest =>
    have h : ((rest.length : ℚ) + 1) ≠ 0 := by positivity
    simp [summaryTempBlock, pydiv, h]

/-- C4: over every metrics buffer, including the empty one, the
summary computation returns a value (no division ever reaches a zero
denominator); each numeric field aggregates only the records where the
field is present, a field present in no record yields 0, and the
temperature keys are omitted exactly when no record carries a
temperature. -/
theorem write_summary_total_and_fieldwise :
    ∀ (buffer : List MetricRecord) (fc : Nat) (af : ℚ),
      ∃ s : BenchSummary,
        YOLOv8Benchmark.write_summary buffer fc af = some s ∧
        s.total_frames = fc ∧
        s.avg_fps = af ∧
        s.avg_inference_ms =
          (if buffer.filterMap (fun m => m.inference_time) = [] then 0
           else (buffer.filterMap (fun m => m.inference_time)).sum /
             ((buffer.filterMap (fun m => m.inference_time)).length : ℚ)) * 1000 ∧
        s.min_inference_ms = summaryMin (buffer.filterMap (fun m => m.inference_time)) * 1000 ∧
        s.max_inference_ms = summaryMax (buffer.filterMap (fun m => m.inference_time)) * 1000 ∧
        s.min_fps = summaryMin (buffer.filterMap (fun m => m.fps)) ∧
        s.max_fps = summaryMax (buffer.filterMap (fun m => m.fps)) ∧
        s.avg_cpu =
          (if buffer.filterMap (fun m => m.cpu_percent) = [] then 0
           else (buffer.filterMap (fun m => m.cpu_percent)).sum /
             ((buffer.filterMap (fun m => m.cpu_percent)).length : ℚ)) ∧
        s.max_cpu = summaryMax (buffer.filterMap (fun m => m.cpu_percent)) ∧
        s.avg_memory =
          (if buffer.filterMap (fun m => m.memory_percent) = [] then 0
           else (buffer.filterMap (fun m => m.memory_percent)).sum /
             ((buffer.filterMap (fun m => m.memory_percent)).length : ℚ)) ∧
        s.max_memory = summaryMax (buffer.filterMap (fun m => m.memory_percent)) ∧
        s.throttle_events = (buffer.filter (fun m => m.throttled)).length ∧
        (s.temperature_block = none ↔ buffer.filterMap (fun m => m.temperature) = []) := by
  intro buffer fc af
  simp only [YOLOv8Benchmark.write_summary, summaryAvg_eq, summaryTempBlock_eq,
    Option.bind_eq_bind, Option.some_bind]
  refine ⟨_, rfl, rfl, rfl, rfl, rfl, rfl, rfl, rfl, rfl, rfl, rfl, rfl, rfl, ?_⟩
  cases htemps : buffer.filterMap (fun m => m.temperature) <;> simp

/-- C4 (witness): the summary over the empty buffer exists and keeps
the frame count passed in. -/
theorem write_summary_total_witness :
    ∃ s : BenchSummary,
      YOLOv8Benchmark.write_summary [] 5 7 = some s ∧ s.total_frames = 5 :=
  (write_summary_total_and_fieldwise [] 5 7).elim fun s h => ⟨s, h.1, h.2.1⟩
